import Mathlib

/-!
# Workflow & SLA Engine — verification of the ATS service

A shallow embedding of the workflow engine of the recruitment platform's
ATS service (`services/ats-service/app`): the data model (`models.py`),
the workflow service (`services/workflow_service.py`), the SLA monitor
(`services/sla_monitor.py`), the notification service
(`services/notification_service.py`) and the bulk-operation endpoints
(`routers/applications.py`).

Conventions of the embedding:
* database ids (UUIDs in the source) are `Nat`;
* timestamps are `Int` seconds; a `timedelta(hours=h)` is `h * 3600`;
* each service call executes at a single instant `now` (the source calls
  `datetime.utcnow()` several times inside one call; the calls are
  microseconds apart and the `server_default=func.now()` column default
  fires at commit time of the same call);
* a SQLAlchemy table is a `List` of rows in insertion order; `.first()`
  on a filtered query is `List.find?`; mutating a fetched row and
  committing is mapping the update over the list;
* `raise ValueError` / `HTTPException` is `Except.error`.
-/

/-- Decidable equality for `Except`, so results of the fallible operations
can be checked on concrete inputs by `decide`. -/
instance instDecEqExcept {ε α : Type _} [DecidableEq ε] [DecidableEq α] :
    DecidableEq (Except ε α) := fun x y =>
  match x, y with
  | .ok a, .ok b =>
    if h : a = b then isTrue (by rw [h])
    else isFalse (by intro hc; cases hc; exact h rfl)
  | .error a, .error b =>
    if h : a = b then isTrue (by rw [h])
    else isFalse (by intro hc; cases hc; exact h rfl)
  | .ok _, .error _ => isFalse (by intro hc; cases hc)
  | .error _, .ok _ => isFalse (by intro hc; cases hc)

namespace ATS

/-- Row of `workflow_stages` (`models.WorkflowStage`). -/
structure WorkflowStage where
  id : Nat
  jobId : Nat
  name : String
  orderIndex : Nat
  slaHours : Nat
  isActive : Bool
  deriving Repr, DecidableEq

/-- Row of `applications` (`models.Application`). -/
structure Application where
  id : Nat
  candidateId : Nat
  jobId : Nat
  status : String
  deriving Repr, DecidableEq

/-- Row of `stage_transitions` (`models.StageTransition`). -/
structure StageTransition where
  id : Nat
  applicationId : Nat
  stageId : Nat
  enteredAt : Int
  exitedAt : Option Int
  slaDeadline : Int
  isEscalated : Bool
  escalatedAt : Option Int
  escalatedTo : Option Nat
  notes : Option String
  deriving Repr, DecidableEq

/-- Row of `application_status_history` (`models.ApplicationStatusHistory`). -/
structure StatusHistoryEntry where
  id : Nat
  applicationId : Nat
  previousStatus : String
  newStatus : String
  changedBy : Nat
  changeReason : String
  deriving Repr, DecidableEq

/-- Row of `sla_escalations` (`models.SLAEscalation`). -/
structure SLAEscalation where
  id : Nat
  applicationId : Nat
  stageTransitionId : Nat
  escalationType : String
  escalatedTo : Nat
  escalationReason : String
  isResolved : Bool
  resolvedAt : Option Int
  resolvedBy : Option Nat
  deriving Repr, DecidableEq

/-- Row of `job_postings` (`models.JobPosting`), the fields the engine reads. -/
structure JobPosting where
  id : Nat
  title : String
  createdBy : Nat
  deriving Repr, DecidableEq

/-- Row of `users` (`models.User`), the fields the engine reads. -/
structure User where
  id : Nat
  email : String
  firstName : String
  lastName : String
  deriving Repr, DecidableEq

/-- Row of `candidates` (`models.Candidate`), the fields the engine reads. -/
structure Candidate where
  id : Nat
  email : String
  firstName : String
  lastName : String
  deriving Repr, DecidableEq

/-- The database state seen by the ATS service: one list of rows per table,
in insertion order, plus a fresh-id counter standing for uuid4 generation. -/
structure DB where
  applications : List Application
  stages : List WorkflowStage
  transitions : List StageTransition
  history : List StatusHistoryEntry
  escalations : List SLAEscalation
  jobs : List JobPosting
  users : List User
  candidates : List Candidate
  nextId : Nat
  deriving Repr, DecidableEq

/-- The filter of `workflow_service.advance_application_to_stage` lines 82-87:
transition of this application with `exited_at IS NULL`. -/
def isOpenFor (applicationId : Nat) (t : StageTransition) : Bool :=
  t.applicationId == applicationId && t.exitedAt.isNone

/-- Close step of the advance: `advance_application_to_stage` fetches the `.first()` open transition and
sets its `exited_at` (lines 82-90): close the first open row, leave the rest. -/
def closeFirstOpen (applicationId : Nat) (now : Int) :
    List StageTransition → List StageTransition
  | [] => []
  | t :: ts =>
    if isOpenFor applicationId t then { t with exitedAt := some now } :: ts
    else t :: closeFirstOpen applicationId now ts

/-- Canonicalisation `target_stage.name.lower().replace(" ", "_")`
(`workflow_service.py` line 107), written character-wise: lowering is
per-character, and replacing the one-character pattern `" "` is the
per-character substitution of `'_'` for `' '`. -/
def canonicalStatus (name : String) : String :=
  ⟨name.data.map (fun c => if c.toLower = ' ' then '_' else c.toLower)⟩

/-- Embeds `WorkflowService.advance_application_to_stage` (lines 56-123).
Returns the updated database and the new transition, or the `ValueError`
message. The source checks only that the application row and the stage row
exist; it reads neither `is_active` nor the stage's `job_id`. -/
def advance_application_to_stage (db : DB) (now : Int)
    (applicationId stageId userId : Nat) (notes : Option String) :
    Except String (DB × StageTransition) :=
  match db.applications.find? (fun a => a.id == applicationId) with
  | none => .error ("Application " ++ toString applicationId ++ " not found")
  | some application =>
    match db.stages.find? (fun s => s.id == stageId) with
    | none => .error ("Workflow stage " ++ toString stageId ++ " not found")
    | some targetStage =>
      let transitions1 := closeFirstOpen applicationId now db.transitions
      let slaDeadline := now + (targetStage.slaHours : Int) * 3600
      let newTransition : StageTransition :=
        { id := db.nextId
          applicationId := applicationId
          stageId := stageId
          enteredAt := now
          exitedAt := none
          slaDeadline := slaDeadline
          isEscalated := false
          escalatedAt := none
          escalatedTo := none
          notes := notes }
      let oldStatus := application.status
      let newStatus := canonicalStatus targetStage.name
      let applications1 := db.applications.map
        (fun a => if a.id == applicationId then { a with status := newStatus } else a)
      let statusHistory : StatusHistoryEntry :=
        { id := db.nextId + 1
          applicationId := applicationId
          previousStatus := oldStatus
          newStatus := newStatus
          changedBy := userId
          changeReason := "Advanced to stage: " ++ targetStage.name }
      .ok ({ db with
              applications := applications1
              transitions := transitions1 ++ [newTransition]
              history := db.history ++ [statusHistory]
              nextId := db.nextId + 2 },
           newTransition)

/-- Embeds `WorkflowService.get_current_stage_transition` (lines 125-132). -/
def get_current_stage_transition (db : DB) (applicationId : Nat) :
    Option StageTransition :=
  db.transitions.find? (isOpenFor applicationId)

/-- Embeds `WorkflowService.check_sla_violations` (lines 134-146): open transitions
past their deadline and not yet escalated. -/
def check_sla_violations (db : DB) (now : Int) : List StageTransition :=
  db.transitions.filter
    (fun t => t.exitedAt.isNone && decide (t.slaDeadline < now) && !t.isEscalated)

/-- Embeds `WorkflowService.escalate_sla_violation` (lines 148-183), addressed by
transition id as the router does (`routers/workflow.py` lines 99-129).
The source never checks `is_escalated`: it always inserts a new
`SLAEscalation` row and re-marks the transition. -/
def escalate_sla_violation (db : DB) (now : Int)
    (stageTransitionId : Nat) (escalationType : String) :
    Except String (DB × SLAEscalation) :=
  match db.transitions.find? (fun t => t.id == stageTransitionId) with
  | none => .error "Stage transition not found"
  | some stageTransition =>
    match db.applications.find? (fun a => a.id == stageTransition.applicationId) with
    | none => .error "Application not found"
    | some application =>
      match db.jobs.find? (fun j => j.id == application.jobId) with
      | none => .error ("Job posting not found for application " ++ toString application.id)
      | some job =>
        let escalation : SLAEscalation :=
          { id := db.nextId
            applicationId := application.id
            stageTransitionId := stageTransition.id
            escalationType := escalationType
            escalatedTo := job.createdBy
            escalationReason :=
              "Application has exceeded SLA deadline by "
                ++ toString (now - stageTransition.slaDeadline)
            isResolved := false
            resolvedAt := none
            resolvedBy := none }
        let transitions1 := db.transitions.map
          (fun t => if t.id == stageTransitionId then
              { t with isEscalated := true
                       escalatedAt := some now
                       escalatedTo := some job.createdBy }
            else t)
        .ok ({ db with
                transitions := transitions1
                escalations := db.escalations ++ [escalation]
                nextId := db.nextId + 1 },
             escalation)

/-- Embeds `WorkflowService.resolve_escalation` (lines 243-265). The source does not
check `is_resolved` before overwriting the resolution fields. -/
def resolve_escalation (db : DB) (now : Int) (escalationId resolvedBy : Nat) :
    Except String (DB × SLAEscalation) :=
  match db.escalations.find? (fun e => e.id == escalationId) with
  | none => .error ("Escalation " ++ toString escalationId ++ " not found")
  | some escalation =>
    let escalation1 :=
      { escalation with isResolved := true
                        resolvedAt := some now
                        resolvedBy := some resolvedBy }
    let escalations1 := db.escalations.map
      (fun e => if e.id == escalationId then escalation1 else e)
    .ok ({ db with escalations := escalations1 }, escalation1)

/-- Computes `overdue_hours = (datetime.utcnow() - transition.sla_deadline).total_seconds() / 3600`
(`sla_monitor.py` line 52), as exact rational division. -/
def overdue_hours (now slaDeadline : Int) : ℚ :=
  ((now - slaDeadline : Int) : ℚ) / 3600

/-- The severity classification of `SLAMonitorService._check_sla_violations`
(`sla_monitor.py` lines 55-60). -/
def monitor_escalation_type (now slaDeadline : Int) : String :=
  if overdue_hours now slaDeadline < 24 then "warning"
  else if overdue_hours now slaDeadline < 72 then "critical"
  else "overdue"

/-- The body of the monitor loop for one overdue transition
(`sla_monitor.py` lines 49-66): classify, then escalate. -/
def monitor_escalate_one (db : DB) (now : Int) (t : StageTransition) :
    Except String (DB × SLAEscalation) :=
  escalate_sla_violation db now t.id (monitor_escalation_type now t.slaDeadline)

/-!
## Notification service (`services/notification_service.py`)
-/

/-- One element of the `recipients` list built by
`NotificationService.send_status_change_notification` (lines 55-77). -/
structure Recipient where
  rtype : String
  email : String
  name : String
  deriving Repr, DecidableEq

/-- The notification payload assembled by
`NotificationService.send_status_change_notification` (lines 40-77),
without the wall-clock `sent_at` field. -/
structure NotificationData where
  notificationId : String
  applicationId : Nat
  candidateEmail : String
  candidateName : String
  jobTitle : String
  previousStatus : String
  newStatus : String
  changedBy : String
  changeReason : String
  recipients : List Recipient
  deriving Repr, DecidableEq

/-- Embeds `NotificationService.send_status_change_notification` (lines 18-84).
The candidate is appended unconditionally; the hiring manager is appended
only when the new status is in the trigger list AND the `users` table has a
row for `job.created_by`. The candidate and job rows are reached through ORM
relationships, whose absence would raise: modelled as an error. -/
def send_status_change_notification (db : DB) (applicationId : Nat)
    (statusChange : StatusHistoryEntry) : Except String NotificationData :=
  match db.applications.find? (fun a => a.id == applicationId) with
  | none => .error ("Application " ++ toString applicationId ++ " not found")
  | some application =>
    match db.candidates.find? (fun c => c.id == application.candidateId) with
    | none => .error "candidate relationship missing"
    | some candidate =>
      match db.jobs.find? (fun j => j.id == application.jobId) with
      | none => .error "job relationship missing"
      | some job =>
        let changedByUser := db.users.find? (fun u => u.id == statusChange.changedBy)
        let changedByName :=
          match changedByUser with
          | some u => u.firstName ++ " " ++ u.lastName
          | none => "System"
        let candidateRecipient : Recipient :=
          { rtype := "candidate"
            email := candidate.email
            name := candidate.firstName ++ " " ++ candidate.lastName }
        let recipients :=
          if ["interview", "offer", "hired", "rejected"].contains statusChange.newStatus then
            match db.users.find? (fun u => u.id == job.createdBy) with
            | some hiringManager =>
              [candidateRecipient,
               { rtype := "hiring_manager"
                 email := hiringManager.email
                 name := hiringManager.firstName ++ " " ++ hiringManager.lastName }]
            | none => [candidateRecipient]
          else [candidateRecipient]
        .ok { notificationId :=
                "notif_" ++ toString applicationId ++ "_" ++ toString statusChange.id
              applicationId := applicationId
              candidateEmail := candidate.email
              candidateName := candidate.firstName ++ " " ++ candidate.lastName
              jobTitle := job.title
              previousStatus := statusChange.previousStatus
              newStatus := statusChange.newStatus
              changedBy := changedByName
              changeReason := statusChange.changeReason
              recipients := recipients }

/-!
## Bulk operation endpoints (`routers/applications.py`)

Only the submission half runs synchronously in the request: validation,
operation-id construction, and initialisation of the in-memory progress
record; the per-item processing happens in a background task afterwards.
-/

/-- One record of the module-level `bulk_operation_progress` dict, as
initialised at submission (lines 133-142 and 332-341). -/
structure ProgressRecord where
  total : Nat
  processed : Nat
  successful : Nat
  failed : Nat
  opStatus : String
  errors : List String
  startedAt : Option Int
  completedAt : Option Int
  deriving Repr, DecidableEq

/-- The in-memory `bulk_operation_progress` dict. -/
def ProgressMap := String → Option ProgressRecord

/-- Python dict assignment `bulk_operation_progress[operation_id] = record`:
unconditional overwrite. -/
def mapSet (m : ProgressMap) (k : String) (v : ProgressRecord) : ProgressMap :=
  fun k' => if k' = k then some v else m k'

/-- The fresh record both submitters store (lines 133-142, 332-341). -/
def initProgress (total : Nat) : ProgressRecord :=
  { total := total
    processed := 0
    successful := 0
    failed := 0
    opStatus := "in_progress"
    errors := []
    startedAt := none
    completedAt := none }

/-- Builds `operation_id = f"bulk_{len(ids)}_{new_status}_{changed_by}"` (line 130). -/
def bulkOpId (n : Nat) (newStatus : String) (changedBy : Nat) : String :=
  "bulk_" ++ toString n ++ "_" ++ newStatus ++ "_" ++ toString changedBy

/-- Builds `operation_id = f"bulk_stage_{len(ids)}_{stage_id}_{changed_by}"` (line 329). -/
def bulkStageOpId (n : Nat) (stageId : Nat) (changedBy : Nat) : String :=
  "bulk_stage_" ++ toString n ++ "_" ++ toString stageId ++ "_" ++ toString changedBy

/-- Computes `missing_ids = set(application_ids) - {app.id for app in applications}`
(line 123), in first-occurrence order. -/
def missingIds (db : DB) (ids : List Nat) : List Nat :=
  (ids.filter (fun i => (db.applications.find? (fun a => a.id == i)).isNone)).dedup

/-- The synchronous part of `bulk_status_update` (lines 109-157): query the
applications whose id is in the request, fail when the row count differs from
the request count, otherwise store a fresh progress record under the
operation id. Returns the response (or error detail) and the updated dict. -/
def bulk_status_update (db : DB) (ids : List Nat) (newStatus : String)
    (changedBy : Nat) (m : ProgressMap) :
    Except (List Nat) String × ProgressMap :=
  let found := db.applications.filter (fun a => ids.contains a.id)
  if found.length = ids.length then
    let opId := bulkOpId ids.length newStatus changedBy
    (.ok opId, mapSet m opId (initProgress ids.length))
  else
    (.error (missingIds db ids), m)

/-- The synchronous part of `bulk_move_to_stage` (lines 307-360): only the
stage row is validated; the application ids are not checked here (missing
ids surface later as per-item failures in the background task). -/
def bulk_move_to_stage (db : DB) (ids : List Nat) (stageId : Nat)
    (changedBy : Nat) (m : ProgressMap) :
    Except String String × ProgressMap :=
  match db.stages.find? (fun s => s.id == stageId) with
  | none => (.error "Workflow stage not found", m)
  | some _ =>
    let opId := bulkStageOpId ids.length stageId changedBy
    (.ok opId, mapSet m opId (initProgress ids.length))

/-!
## Engine operation sequences

The engine operations that touch `stage_transitions`, for stating the
whole-history invariants (claims about "every sequence of engine
operations"). On an error the router returns 400 and nothing is committed,
so a failed call leaves the database unchanged.
-/

/-- An engine operation: advance, escalate, or resolve. -/
inductive Op where
  | advance (now : Int) (applicationId stageId userId : Nat) (notes : Option String)
  | escalate (now : Int) (stageTransitionId : Nat) (escalationType : String)
  | resolve (now : Int) (escalationId resolvedBy : Nat)
  deriving Repr, DecidableEq

/-- Apply one engine operation, keeping the database unchanged on error. -/
def applyOp (db : DB) : Op → DB
  | .advance now a s u n =>
    match advance_application_to_stage db now a s u n with
    | .ok (db', _) => db'
    | .error _ => db
  | .escalate now tid ty =>
    match escalate_sla_violation db now tid ty with
    | .ok (db', _) => db'
    | .error _ => db
  | .resolve now eid u =>
    match resolve_escalation db now eid u with
    | .ok (db', _) => db'
    | .error _ => db

/-- Run a sequence of engine operations. -/
def runOps (db : DB) (ops : List Op) : DB :=
  ops.foldl applyOp db

/-- Number of open transitions of one application. -/
def openCount (db : DB) (applicationId : Nat) : Nat :=
  db.transitions.countP (isOpenFor applicationId)

/-- Invariant: every application has at most one open transition. -/
def OpenInvariant (db : DB) : Prop :=
  ∀ applicationId, openCount db applicationId ≤ 1

/-!
## Concrete fixtures

A small concrete database used to evaluate the operations on explicit
inputs, mirroring the fixture of `tests/test_workflow_system.py`
(one job with a hiring manager, one candidate, one application,
the "Initial Screening" stage, an open transition on it).
-/

/-- Fixture application: candidate 3 applied to job 1. -/
def appW : Application :=
  { id := 1, candidateId := 3, jobId := 1, status := "initial_screening" }

/-- Fixture stage: "Initial Screening" of job 1, 48h SLA. -/
def stageW : WorkflowStage :=
  { id := 2, jobId := 1, name := "Initial Screening", orderIndex := 2,
    slaHours := 48, isActive := true }

/-- Fixture open transition of application 1 on stage 2, entered at t=0. -/
def trOpenW : StageTransition :=
  { id := 10, applicationId := 1, stageId := 2, enteredAt := 0, exitedAt := none,
    slaDeadline := 172800, isEscalated := false, escalatedAt := none,
    escalatedTo := none, notes := none }

/-- Fixture job posting, created by user 5 (the hiring manager). -/
def jobW : JobPosting := { id := 1, title := "Workflow Test Job", createdBy := 5 }

/-- Fixture hiring-manager user. -/
def userW : User :=
  { id := 5, email := "hm@x.com", firstName := "Hiring", lastName := "Manager" }

/-- Fixture candidate. -/
def candW : Candidate :=
  { id := 3, email := "cand@x.com", firstName := "Test", lastName := "Candidate" }

/-- Fixture database. -/
def dbW : DB :=
  { applications := [appW], stages := [stageW], transitions := [trOpenW],
    history := [], escalations := [], jobs := [jobW], users := [userW],
    candidates := [candW], nextId := 20 }

/-- The transition created by `advance_application_to_stage dbW 100 1 2 5 none`. -/
def trNewW : StageTransition :=
  { id := 20, applicationId := 1, stageId := 2, enteredAt := 100, exitedAt := none,
    slaDeadline := 172900, isEscalated := false, escalatedAt := none,
    escalatedTo := none, notes := none }

/-- The history entry created by `advance_application_to_stage dbW 100 1 2 5 none`. -/
def histNewW : StatusHistoryEntry :=
  { id := 21, applicationId := 1, previousStatus := "initial_screening",
    newStatus := "initial_screening", changedBy := 5,
    changeReason := "Advanced to stage: Initial Screening" }

/-- The database produced by `advance_application_to_stage dbW 100 1 2 5 none`. -/
def dbWAfter : DB :=
  { dbW with
      transitions := [{ trOpenW with exitedAt := some 100 }, trNewW],
      history := [histNewW],
      nextId := 22 }

/-- Fixture inactive stage of job 1. -/
def stageInactive : WorkflowStage :=
  { id := 7, jobId := 1, name := "Hidden", orderIndex := 9, slaHours := 24,
    isActive := false }

/-- Fixture active stage belonging to a different job (99). -/
def stageOtherJob : WorkflowStage :=
  { id := 8, jobId := 99, name := "Other", orderIndex := 1, slaHours := 24,
    isActive := true }

/-- Fixture database with an inactive stage and a foreign-job stage. -/
def dbW2 : DB := { dbW with stages := [stageW, stageInactive, stageOtherJob] }

/-- Fixture transition that is already escalated. -/
def trEsc : StageTransition :=
  { trOpenW with isEscalated := true, escalatedAt := some 50, escalatedTo := some 5 }

/-- Fixture unresolved escalation already referencing transition 10. -/
def escExisting : SLAEscalation :=
  { id := 11, applicationId := 1, stageTransitionId := 10,
    escalationType := "warning", escalatedTo := 5, escalationReason := "r",
    isResolved := false, resolvedAt := none, resolvedBy := none }

/-- Fixture database whose open transition is already escalated. -/
def dbEsc : DB := { dbW with transitions := [trEsc], escalations := [escExisting] }

/-- Fixture database with no user rows (the job's creator id dangles). -/
def dbNoHM : DB := { dbW with users := [] }

/-- Fixture status-history entry moving application 1 to `interview`. -/
def histW : StatusHistoryEntry :=
  { id := 30, applicationId := 1, previousStatus := "applied",
    newStatus := "interview", changedBy := 5, changeReason := "r" }

/-- The notification produced by `send_status_change_notification dbW 1 histW`. -/
def ndW : NotificationData :=
  { notificationId := "notif_1_30", applicationId := 1,
    candidateEmail := "cand@x.com", candidateName := "Test Candidate",
    jobTitle := "Workflow Test Job", previousStatus := "applied",
    newStatus := "interview", changedBy := "Hiring Manager", changeReason := "r",
    recipients :=
      [{ rtype := "candidate", email := "cand@x.com", name := "Test Candidate" },
       { rtype := "hiring_manager", email := "hm@x.com", name := "Hiring Manager" }] }

/-- Fixture second application, for the bulk-id collision claim. -/
def app2W : Application :=
  { id := 2, candidateId := 4, jobId := 1, status := "applied" }

/-- Fixture database with two applications. -/
def dbW10 : DB := { dbW with applications := [appW, app2W] }

/-- The empty in-memory progress dict. -/
def emptyMap : ProgressMap := fun _ => none

/-- The escalation the monitor creates for `trOpenW` at t=176400 (1h overdue). -/
def escMonW : SLAEscalation :=
  { id := 20, applicationId := 1, stageTransitionId := 10,
    escalationType := "warning", escalatedTo := 5,
    escalationReason := "Application has exceeded SLA deadline by 3600",
    isResolved := false, resolvedAt := none, resolvedBy := none }

/-- The marked transition after the monitor escalates `trOpenW` at t=176400. -/
def trMonEscW : StageTransition :=
  { trOpenW with isEscalated := true, escalatedAt := some 176400, escalatedTo := some 5 }

/-- The database after the monitor escalates `trOpenW` at t=176400. -/
def dbMonAfter : DB :=
  { dbW with
      transitions := [trMonEscW],
      escalations := [escMonW],
      nextId := 21 }

/-- Fixture operation sequence: an advance then a monitor escalation. -/
def opsW : List Op :=
  [Op.advance 100 1 2 5 none, Op.escalate 200000 10 "overdue"]

/-!
## Shared lemmas
-/

/-- Unfolding a successful `escalate_sla_violation`: the stored escalation
carries the caller's type verbatim, is unresolved, and is appended to the
escalations table. -/
theorem escalate_ok_spec {db : DB} {now : Int} {tid : Nat} {ty : String}
    {db' : DB} {e : SLAEscalation}
    (h : escalate_sla_violation db now tid ty = .ok (db', e)) :
    e.escalationType = ty ∧ e.isResolved = false ∧
    db'.escalations = db.escalations ++ [e] ∧
    db'.transitions = db.transitions.map
      (fun t => if t.id == tid then
          { t with isEscalated := true, escalatedAt := some now,
                   escalatedTo := some e.escalatedTo } else t) := by
  unfold escalate_sla_violation at h
  split at h
  · exact Except.noConfusion h
  · split at h
    · exact Except.noConfusion h
    · split at h
      · exact Except.noConfusion h
      · simp only [Except.ok.injEq, Prod.mk.injEq] at h
        obtain ⟨hdb, he⟩ := h
        subst hdb
        subst he
        exact ⟨rfl, rfl, rfl, rfl⟩

/-- Unfolding a successful `advance_application_to_stage`: the looked-up rows
exist and the new state is exactly the source's write set. -/
theorem advance_ok_spec {db : DB} {now : Int} {a s u : Nat} {n : Option String}
    {db' : DB} {tr : StageTransition}
    (h : advance_application_to_stage db now a s u n = .ok (db', tr)) :
    ∃ app stage,
      db.applications.find? (fun x => x.id == a) = some app ∧
      db.stages.find? (fun x => x.id == s) = some stage ∧
      tr = { id := db.nextId, applicationId := a, stageId := s, enteredAt := now,
             exitedAt := none,
             slaDeadline := now + (stage.slaHours : Int) * 3600,
             isEscalated := false, escalatedAt := none, escalatedTo := none,
             notes := n } ∧
      db'.transitions = closeFirstOpen a now db.transitions ++ [tr] ∧
      db'.history = db.history ++
        [{ id := db.nextId + 1, applicationId := a, previousStatus := app.status,
           newStatus := canonicalStatus stage.name, changedBy := u,
           changeReason := "Advanced to stage: " ++ stage.name }] ∧
      db'.applications = db.applications.map
        (fun x => if x.id == a then { x with status := canonicalStatus stage.name }
                  else x) ∧
      db'.nextId = db.nextId + 2 ∧
      db'.stages = db.stages ∧ db'.escalations = db.escalations := by
  unfold advance_application_to_stage at h
  split at h
  · exact Except.noConfusion h
  · rename_i application hfa
    split at h
    · exact Except.noConfusion h
    · rename_i targetStage hfs
      simp only [Except.ok.injEq, Prod.mk.injEq] at h
      obtain ⟨hdb, htr⟩ := h
      subst hdb
      subst htr
      exact ⟨application, targetStage, hfa, hfs, rfl, rfl, rfl, rfl, rfl, rfl, rfl⟩

/-- An advance fails exactly when the application row or the stage row is
missing; no other precondition is checked. -/
theorem advance_error_iff (db : DB) (now : Int) (a s u : Nat) (n : Option String) :
    (∃ msg, advance_application_to_stage db now a s u n = .error msg) ↔
      (db.applications.find? (fun x => x.id == a) = none ∨
       db.stages.find? (fun x => x.id == s) = none) := by
  constructor
  · rintro ⟨msg, h⟩
    unfold advance_application_to_stage at h
    split at h
    · rename_i hfa
      exact Or.inl hfa
    · split at h
      · rename_i hfs
        exact Or.inr hfs
      · exact Except.noConfusion h
  · intro hcase
    unfold advance_application_to_stage
    rcases hcase with hfa | hfs
    · rw [hfa]
      exact ⟨_, rfl⟩
    · cases hfa : db.applications.find? (fun x => x.id == a) with
      | none => exact ⟨_, rfl⟩
      | some app => rw [hfs]; exact ⟨_, rfl⟩

/-- A failed advance leaves the database unchanged. -/
theorem applyOp_advance_error (db : DB) (now : Int) (a s u : Nat) (n : Option String)
    (hcase : db.applications.find? (fun x => x.id == a) = none ∨
             db.stages.find? (fun x => x.id == s) = none) :
    applyOp db (.advance now a s u n) = db := by
  obtain ⟨msg, herr⟩ := (advance_error_iff db now a s u n).mpr hcase
  simp only [applyOp, herr]

/-!
## Claims
-/

/-- C3 (counterexample): the claim says advance must fail with `StageNotFound`
for an inactive stage and with `StageNotForApplicationJob` for a stage of a
different job; in the code both advances succeed. -/
theorem C3_counterexample :
    stageInactive.isActive = false ∧
    (advance_application_to_stage dbW2 100 1 7 5 none).toOption.isSome = true ∧
    stageOtherJob.jobId ≠ appW.jobId ∧
    (advance_application_to_stage dbW2 100 1 8 5 none).toOption.isSome = true := by
  decide

/-- C3 (amended): an advance fails exactly when the application row or the
stage row does not exist; the stage's `is_active` flag and its job are not
checked, and a failed advance writes nothing (the database is unchanged). -/
theorem C3_advance_failure_conditions :
    ∀ (db : DB) (now : Int) (a s u : Nat) (n : Option String),
      ((∃ msg, advance_application_to_stage db now a s u n = .error msg) ↔
        (db.applications.find? (fun x => x.id == a) = none ∨
         db.stages.find? (fun x => x.id == s) = none)) ∧
      ((db.applications.find? (fun x => x.id == a) = none ∨
        db.stages.find? (fun x => x.id == s) = none) →
        applyOp db (.advance now a s u n) = db) :=
  fun db now a s u n =>
    ⟨advance_error_iff db now a s u n, applyOp_advance_error db now a s u n⟩

/-- C3 witness: advancing a nonexistent application 42 errors and leaves the
database unchanged. -/
theorem C3_advance_failure_conditions_witness :
    (∃ msg, advance_application_to_stage dbW 100 42 2 5 none = .error msg) ∧
    applyOp dbW (.advance 100 42 2 5 none) = dbW :=
  ⟨(C3_advance_failure_conditions dbW 100 42 2 5 none).1.mpr (Or.inl (by decide)),
   (C3_advance_failure_conditions dbW 100 42 2 5 none).2 (Or.inl (by decide))⟩

/-- C5 (counterexample): transition 10 is already escalated and escalation 11
already references it unresolved, yet `escalate_sla_violation` inserts a new
escalation row (id 20, table grows 1 → 2) instead of returning escalation 11,
and overwrites the transition's `escalated_at` (50 → 200000). -/
theorem C5_counterexample :
    trEsc.isEscalated = true ∧
    escExisting ∈ dbEsc.escalations ∧
    escExisting.isResolved = false ∧
    escExisting.stageTransitionId = trEsc.id ∧
    ((escalate_sla_violation dbEsc 200000 10 "critical").toOption.map
        (fun r => (r.2.id, r.1.escalations.length,
                   (r.1.transitions.find? (fun t => t.id == 10)).map
                     (fun t => t.escalatedAt))))
      = some (20, 2, some (some 200000)) ∧
    (20 : Nat) ≠ 11 ∧
    dbEsc.escalations.length = 1 ∧
    trEsc.escalatedAt = some 50 := by
  decide

/-- C5 (amended): every successful `escalate_sla_violation` call inserts a
fresh unresolved escalation row regardless of the transition's `is_escalated`
flag; the pre-existing escalation is never returned. Escalation happens at
most once per transition only through the monitor pipeline, because
`check_sla_violations` filters out transitions with `is_escalated = true`. -/
theorem C5_escalate_always_inserts :
    ∀ (db : DB) (now : Int) (tid : Nat) (ty : String) (db' : DB)
      (e : SLAEscalation),
      escalate_sla_violation db now tid ty = .ok (db', e) →
      db'.escalations = db.escalations ++ [e] ∧ e.isResolved = false ∧
      (∀ t : StageTransition, t.isEscalated = true →
        t ∉ check_sla_violations db now) := by
  intro db now tid ty db' e h
  obtain ⟨_, hres, happ, _⟩ := escalate_ok_spec h
  refine ⟨happ, hres, ?_⟩
  intro t ht hmem
  simp [check_sla_violations, List.mem_filter, ht] at hmem

/-- C5 witness: escalating transition 10 of the fixture appends exactly the
new row, and an already-escalated transition is never in the monitor's
work list. -/
theorem C5_escalate_always_inserts_witness :
    dbMonAfter.escalations = dbW.escalations ++ [escMonW] ∧
    escMonW.isResolved = false ∧
    trEsc ∉ check_sla_violations dbW 176400 :=
  let h := C5_escalate_always_inserts dbW 176400 10 "warning" dbMonAfter escMonW
    (by decide)
  ⟨h.1, h.2.1, h.2.2 trEsc (by decide)⟩

/-- C6 (confirmed): for every overdue open transition the monitor escalates,
the created escalation's severity is `warning` below 24 overdue hours,
`critical` from 24 up to (excluding) 72, and `overdue` from 72 on. -/
theorem C6_monitor_severity_classification :
    ∀ (db : DB) (now : Int) (t : StageTransition) (db' : DB) (e : SLAEscalation),
      t ∈ check_sla_violations db now →
      monitor_escalate_one db now t = .ok (db', e) →
      (overdue_hours now t.slaDeadline < 24 → e.escalationType = "warning") ∧
      (24 ≤ overdue_hours now t.slaDeadline → overdue_hours now t.slaDeadline < 72 →
        e.escalationType = "critical") ∧
      (72 ≤ overdue_hours now t.slaDeadline → e.escalationType = "overdue") := by
  intro db now t db' e hmem h
  unfold monitor_escalate_one at h
  obtain ⟨hty, _, _, _⟩ := escalate_ok_spec h
  rw [hty]
  unfold monitor_escalation_type
  refine ⟨fun h1 => ?_, fun h1 h2 => ?_, fun h1 => ?_⟩
  · rw [if_pos h1]
  · rw [if_neg (not_lt.mpr h1), if_pos h2]
  · rw [if_neg (not_lt.mpr (le_trans (by norm_num) h1)), if_neg (not_lt.mpr h1)]

/-- C6 witness: the fixture transition one hour overdue is in the monitor's
work list and receives a `warning` escalation. -/
theorem C6_monitor_severity_classification_witness :
    trOpenW ∈ check_sla_violations dbW 176400 ∧
    monitor_escalate_one dbW 176400 trOpenW = .ok (dbMonAfter, escMonW) ∧
    escMonW.escalationType = "warning" := by
  have hty : monitor_escalation_type 176400 trOpenW.slaDeadline = "warning" := by
    norm_num [monitor_escalation_type, overdue_hours, trOpenW]
  have hmon : monitor_escalate_one dbW 176400 trOpenW = .ok (dbMonAfter, escMonW) := by
    unfold monitor_escalate_one
    rw [hty]
    decide
  exact ⟨by decide, hmon,
    (C6_monitor_severity_classification dbW 176400 trOpenW dbMonAfter escMonW
      (by decide) hmon).1 (by norm_num [overdue_hours, trOpenW])⟩

/-- C7 (counterexample): an advance with caller notes "custom note" records
`change_reason = "Advanced to stage: Initial Screening"` in the history,
not the notes. -/
theorem C7_counterexample :
    ((advance_application_to_stage dbW 100 1 2 5 (some "custom note")).toOption.map
        (fun r => r.1.history.map (fun hh => hh.changeReason)))
      = some ["Advanced to stage: Initial Screening"] ∧
    "Advanced to stage: Initial Screening" ≠ "custom note" ∧
    dbW.history = [] := by
  decide

/-- C7 (amended): every successful advance appends exactly one
StatusHistoryEntry whose `change_reason` is always
"Advanced to stage: {stage.name}", whether or not notes were supplied; the
caller's notes are stored on the new transition instead. -/
theorem C7_change_reason_fixed :
    ∀ (db : DB) (now : Int) (a s u : Nat) (n : Option String) (db' : DB)
      (tr : StageTransition) (app : Application) (stage : WorkflowStage),
      db.applications.find? (fun x => x.id == a) = some app →
      db.stages.find? (fun x => x.id == s) = some stage →
      advance_application_to_stage db now a s u n = .ok (db', tr) →
      db'.history = db.history ++
        [{ id := db.nextId + 1, applicationId := a, previousStatus := app.status,
           newStatus := canonicalStatus stage.name, changedBy := u,
           changeReason := "Advanced to stage: " ++ stage.name }] ∧
      tr.notes = n := by
  intro db now a s u n db' tr app stage hfa hfs h
  obtain ⟨app', stage', hfa', hfs', htr, _, hhist, _, _, _, _⟩ := advance_ok_spec h
  rw [hfa] at hfa'
  rw [hfs] at hfs'
  cases hfa'
  cases hfs'
  subst htr
  exact ⟨hhist, rfl⟩

/-- Unfolding a successful `resolve_escalation`: only the escalations table
changes. -/
theorem resolve_ok_spec {db : DB} {now : Int} {eid ru : Nat}
    {db' : DB} {e : SLAEscalation}
    (h : resolve_escalation db now eid ru = .ok (db', e)) :
    db'.transitions = db.transitions ∧ db'.history = db.history ∧
    db'.applications = db.applications := by
  unfold resolve_escalation at h
  split at h
  · exact Except.noConfusion h
  · simp only [Except.ok.injEq, Prod.mk.injEq] at h
    obtain ⟨hdb, he⟩ := h
    subst hdb
    exact ⟨rfl, rfl, rfl⟩

/-- Closing a row sets `exited_at`, so the closed row is not open. -/
theorem isOpenFor_closed (b : Nat) (now : Int) (t : StageTransition) :
    isOpenFor b { t with exitedAt := some now } = false := by
  simp [isOpenFor]

/-- With at most one open row for the application, closing the first open row
leaves none. -/
theorem countP_closeFirstOpen_self (a : Nat) (now : Int) (ts : List StageTransition)
    (h : ts.countP (isOpenFor a) ≤ 1) :
    (closeFirstOpen a now ts).countP (isOpenFor a) = 0 := by
  induction ts with
  | nil => rfl
  | cons t ts ih =>
    rw [closeFirstOpen]
    rw [List.countP_cons] at h
    by_cases hp : isOpenFor a t = true
    · rw [if_pos hp]
      rw [List.countP_cons, isOpenFor_closed]
      simp only [Bool.false_eq_true, if_false]
      rw [if_pos hp] at h
      omega
    · rw [if_neg hp]
      rw [List.countP_cons]
      have hp' : isOpenFor a t = false := by
        cases hq : isOpenFor a t
        · rfl
        · exact absurd hq hp
      rw [hp']
      simp only [Bool.false_eq_true, if_false]
      rw [if_neg hp] at h
      exact ih (by omega)

/-- Closing the first open row of application `a` does not change the open
count of any other application `b`. -/
theorem countP_closeFirstOpen_other (a b : Nat) (now : Int)
    (ts : List StageTransition) (hne : b ≠ a) :
    (closeFirstOpen a now ts).countP (isOpenFor b) = ts.countP (isOpenFor b) := by
  induction ts with
  | nil => rfl
  | cons t ts ih =>
    rw [closeFirstOpen]
    by_cases hp : isOpenFor a t = true
    · rw [if_pos hp]
      have hta : t.applicationId = a := by
        simp [isOpenFor] at hp
        exact hp.1
      have h1 : isOpenFor b { t with exitedAt := some now } = false :=
        isOpenFor_closed b now t
      have h2 : isOpenFor b t = false := by
        simp [isOpenFor, hta]
        intro hab
        exact absurd hab.symm hne
      rw [List.countP_cons, List.countP_cons, h1, h2]
    · rw [if_neg hp]
      rw [List.countP_cons, List.countP_cons, ih]

/-- The escalation marking preserves openness of every row. -/
theorem countP_escalate_map (b tid : Nat) (now : Int) (w : Option Nat)
    (l : List StageTransition) :
    (l.map (fun t => if t.id == tid then
        { t with isEscalated := true, escalatedAt := some now, escalatedTo := w }
      else t)).countP (isOpenFor b) = l.countP (isOpenFor b) := by
  induction l with
  | nil => rfl
  | cons t ts ih =>
    rw [List.map_cons, List.countP_cons, List.countP_cons, ih]
    congr 1
    by_cases hp : (t.id == tid) = true
    · rw [if_pos hp]
      rfl
    · rw [if_neg hp]

/-- A successful advance leaves its application with exactly one open
transition and does not change any other application's open count. -/
theorem openCount_advance (db : DB) (now : Int) (a s u : Nat) (n : Option String)
    (db' : DB) (tr : StageTransition)
    (hinv : openCount db a ≤ 1)
    (h : advance_application_to_stage db now a s u n = .ok (db', tr)) :
    openCount db' a = 1 ∧ ∀ b, b ≠ a → openCount db' b = openCount db b := by
  obtain ⟨app, stage, _, _, htr, htrans, _, _, _, _, _⟩ := advance_ok_spec h
  constructor
  · show db'.transitions.countP (isOpenFor a) = 1
    rw [htrans, List.countP_append, countP_closeFirstOpen_self a now _ hinv]
    subst htr
    simp [List.countP_cons, isOpenFor]
  · intro b hb
    show db'.transitions.countP (isOpenFor b) = db.transitions.countP (isOpenFor b)
    rw [htrans, List.countP_append, countP_closeFirstOpen_other a b now _ hb]
    subst htr
    have hopen : isOpenFor b
        ({ id := db.nextId, applicationId := a, stageId := s, enteredAt := now,
           exitedAt := none, slaDeadline := now + (stage.slaHours : Int) * 3600,
           isEscalated := false, escalatedAt := none, escalatedTo := none,
           notes := n } : StageTransition) = false := by
      simp [isOpenFor]
      intro hab
      exact absurd hab.symm hb
    rw [List.countP_cons, hopen]
    simp

/-- Every engine operation preserves the at-most-one-open invariant. -/
theorem OpenInvariant_applyOp (db : DB) (op : Op) (hinv : OpenInvariant db) :
    OpenInvariant (applyOp db op) := by
  cases op with
  | advance now a s u n =>
    cases h : advance_application_to_stage db now a s u n with
    | error msg => simp only [applyOp, h]; exact hinv
    | ok pair =>
      obtain ⟨db', tr⟩ := pair
      simp only [applyOp, h]
      intro b
      by_cases hb : b = a
      · subst hb
        exact le_of_eq (openCount_advance db now b s u n db' tr (hinv b) h).1
      · rw [(openCount_advance db now a s u n db' tr (hinv a) h).2 b hb]
        exact hinv b
  | escalate now tid ty =>
    cases h : escalate_sla_violation db now tid ty with
    | error msg => simp only [applyOp, h]; exact hinv
    | ok pair =>
      obtain ⟨db', e⟩ := pair
      simp only [applyOp, h]
      intro b
      obtain ⟨_, _, _, htrans⟩ := escalate_ok_spec h
      show db'.transitions.countP (isOpenFor b) ≤ 1
      rw [htrans, countP_escalate_map]
      exact hinv b
  | resolve now eid ru =>
    cases h : resolve_escalation db now eid ru with
    | error msg => simp only [applyOp, h]; exact hinv
    | ok pair =>
      obtain ⟨db', e⟩ := pair
      simp only [applyOp, h]
      intro b
      obtain ⟨htrans, _, _⟩ := resolve_ok_spec h
      show db'.transitions.countP (isOpenFor b) ≤ 1
      rw [htrans]
      exact hinv b

/-- Sequences of engine operations preserve the at-most-one-open invariant. -/
theorem OpenInvariant_runOps (ops : List Op) :
    ∀ db : DB, OpenInvariant db → OpenInvariant (runOps db ops) := by
  induction ops with
  | nil => intro db h; exact h
  | cons op ops ih =>
    intro db h
    exact ih (applyOp db op) (OpenInvariant_applyOp db op h)

/-- C2 (confirmed): starting from a state where every application has at most
one open transition, every sequence of engine operations (advance, escalate,
resolve) preserves that invariant; moreover a successful advance leaves its
application with exactly one open transition and no other application's open
count changes. -/
theorem C2_at_most_one_open :
    (∀ (db : DB) (ops : List Op), OpenInvariant db → OpenInvariant (runOps db ops)) ∧
    (∀ (db : DB) (now : Int) (a s u : Nat) (n : Option String) (db' : DB)
       (tr : StageTransition),
       OpenInvariant db →
       advance_application_to_stage db now a s u n = .ok (db', tr) →
       openCount db' a = 1 ∧ ∀ b, b ≠ a → openCount db' b = openCount db b) :=
  ⟨fun db ops h => OpenInvariant_runOps ops db h,
   fun db now a s u n db' tr hinv h =>
     openCount_advance db now a s u n db' tr (hinv a) h⟩

/-- C2 witness: the fixture database satisfies the invariant, the fixture
operation sequence preserves it, and the concrete advance leaves exactly one
open transition. -/
theorem C2_at_most_one_open_witness :
    openCount (runOps dbW opsW) 1 ≤ 1 ∧ openCount dbWAfter 1 = 1 := by
  have hinv : OpenInvariant dbW := by
    intro b
    show List.countP (isOpenFor b) [trOpenW] ≤ 1
    rw [List.countP_cons]
    split <;> simp
  exact ⟨C2_at_most_one_open.1 dbW opsW hinv 1,
    (C2_at_most_one_open.2 dbW 100 1 2 5 none dbWAfter trNewW hinv (by decide)).1⟩

/-- Closing the first open row keeps, for every row, a row with the same id,
`entered_at` and `sla_deadline`. -/
theorem closeFirstOpen_sameCore (a : Nat) (now : Int) (ts : List StageTransition)
    (t : StageTransition) (ht : t ∈ ts) :
    ∃ t' ∈ closeFirstOpen a now ts,
      t'.id = t.id ∧ t'.enteredAt = t.enteredAt ∧ t'.slaDeadline = t.slaDeadline := by
  induction ts with
  | nil => cases ht
  | cons u us ih =>
    rw [closeFirstOpen]
    by_cases hp : isOpenFor a u = true
    · rw [if_pos hp]
      rcases List.mem_cons.mp ht with rfl | hmem
      · exact ⟨{ t with exitedAt := some now }, List.mem_cons_self _ _, rfl, rfl, rfl⟩
      · exact ⟨t, List.mem_cons_of_mem _ hmem, rfl, rfl, rfl⟩
    · rw [if_neg hp]
      rcases List.mem_cons.mp ht with rfl | hmem
      · exact ⟨t, List.mem_cons_self _ _, rfl, rfl, rfl⟩
      · obtain ⟨t', ht', hc⟩ := ih hmem
        exact ⟨t', List.mem_cons_of_mem _ ht', hc⟩

/-- One engine operation keeps, for every transition row, a row with the same
id, `entered_at` and `sla_deadline`. -/
theorem applyOp_sameCore (db : DB) (op : Op) (t : StageTransition)
    (ht : t ∈ db.transitions) :
    ∃ t' ∈ (applyOp db op).transitions,
      t'.id = t.id ∧ t'.enteredAt = t.enteredAt ∧ t'.slaDeadline = t.slaDeadline := by
  cases op with
  | advance now a s u n =>
    cases h : advance_application_to_stage db now a s u n with
    | error msg => simp only [applyOp, h]; exact ⟨t, ht, rfl, rfl, rfl⟩
    | ok pair =>
      obtain ⟨db', tr⟩ := pair
      simp only [applyOp, h]
      obtain ⟨_, _, _, _, _, htrans, _, _, _, _, _⟩ := advance_ok_spec h
      rw [htrans]
      obtain ⟨t', ht', hc⟩ := closeFirstOpen_sameCore a now db.transitions t ht
      exact ⟨t', List.mem_append_left _ ht', hc⟩
  | escalate now tid ty =>
    cases h : escalate_sla_violation db now tid ty with
    | error msg => simp only [applyOp, h]; exact ⟨t, ht, rfl, rfl, rfl⟩
    | ok pair =>
      obtain ⟨db', e⟩ := pair
      simp only [applyOp, h]
      obtain ⟨_, _, _, htrans⟩ := escalate_ok_spec h
      rw [htrans]
      refine ⟨_, List.mem_map_of_mem _ ht, ?_⟩
      by_cases hp : (t.id == tid) = true
      · rw [if_pos hp]
        exact ⟨rfl, rfl, rfl⟩
      · rw [if_neg hp]
        exact ⟨rfl, rfl, rfl⟩
  | resolve now eid ru =>
    cases h : resolve_escalation db now eid ru with
    | error msg => simp only [applyOp, h]; exact ⟨t, ht, rfl, rfl, rfl⟩
    | ok pair =>
      obtain ⟨db', e⟩ := pair
      simp only [applyOp, h]
      obtain ⟨htrans, _, _⟩ := resolve_ok_spec h
      rw [htrans]
      exact ⟨t, ht, rfl, rfl, rfl⟩

/-- A sequence of engine operations keeps, for every transition row, a row
with the same id, `entered_at` and `sla_deadline`. -/
theorem runOps_sameCore (ops : List Op) :
    ∀ (db : DB) (t : StageTransition), t ∈ db.transitions →
      ∃ t' ∈ (runOps db ops).transitions,
        t'.id = t.id ∧ t'.enteredAt = t.enteredAt ∧
        t'.slaDeadline = t.slaDeadline := by
  induction ops with
  | nil => intro db t ht; exact ⟨t, ht, rfl, rfl, rfl⟩
  | cons op ops ih =>
    intro db t ht
    obtain ⟨t', ht', h1, h2, h3⟩ := applyOp_sameCore db op t ht
    obtain ⟨t'', ht'', h1', h2', h3'⟩ := ih (applyOp db op) t' ht'
    exact ⟨t'', ht'', h1'.trans h1, h2'.trans h2, h3'.trans h3⟩

/-- C4 (confirmed): every transition created by advance has
`sla_deadline = entered_at + stage.sla_hours` (in seconds), and no engine
operation ever changes an existing row's `entered_at` or `sla_deadline`. -/
theorem C4_sla_deadline_formula :
    (∀ (db : DB) (now : Int) (a s u : Nat) (n : Option String) (db' : DB)
       (tr : StageTransition) (stage : WorkflowStage),
       db.stages.find? (fun x => x.id == s) = some stage →
       advance_application_to_stage db now a s u n = .ok (db', tr) →
       tr.enteredAt = now ∧
       tr.slaDeadline = tr.enteredAt + (stage.slaHours : Int) * 3600) ∧
    (∀ (db : DB) (ops : List Op) (t : StageTransition),
       t ∈ db.transitions →
       ∃ t' ∈ (runOps db ops).transitions,
         t'.id = t.id ∧ t'.enteredAt = t.enteredAt ∧
         t'.slaDeadline = t.slaDeadline) := by
  constructor
  · intro db now a s u n db' tr stage hfs h
    obtain ⟨app', stage', _, hfs', htr, _, _, _, _, _, _⟩ := advance_ok_spec h
    rw [hfs] at hfs'
    cases hfs'
    subst htr
    exact ⟨rfl, rfl⟩
  · intro db ops t ht
    exact runOps_sameCore ops db t ht

/-- C4 witness: the concrete advance gives `sla_deadline = entered_at + 48h`,
and the fixture sequence keeps transition 10's immutable fields. -/
theorem C4_sla_deadline_formula_witness :
    (trNewW.enteredAt = 100 ∧
     trNewW.slaDeadline = trNewW.enteredAt + (stageW.slaHours : Int) * 3600) ∧
    ∃ t' ∈ (runOps dbW opsW).transitions,
      t'.id = trOpenW.id ∧ t'.enteredAt = trOpenW.enteredAt ∧
      t'.slaDeadline = trOpenW.slaDeadline :=
  ⟨C4_sla_deadline_formula.1 dbW 100 1 2 5 none dbWAfter trNewW stageW
     (by decide) (by decide),
   C4_sla_deadline_formula.2 dbW opsW trOpenW (by decide)⟩

/-- The close step really closes the first open row: the row `find?` returns
reappears with `exited_at = now`. -/
theorem closeFirstOpen_of_find? (a : Nat) (now : Int) (ts : List StageTransition)
    (told : StageTransition) (h : ts.find? (isOpenFor a) = some told) :
    ∃ t' ∈ closeFirstOpen a now ts, t'.id = told.id ∧ t'.exitedAt = some now := by
  induction ts with
  | nil => cases h
  | cons u us ih =>
    rw [closeFirstOpen]
    by_cases hp : isOpenFor a u = true
    · rw [if_pos hp]
      rw [List.find?_cons_of_pos _ hp] at h
      cases h
      refine ⟨_, List.mem_cons_self _ _, rfl, rfl⟩
    · rw [if_neg hp]
      rw [List.find?_cons_of_neg _ (by simpa using hp)] at h
      obtain ⟨t', ht', hc⟩ := ih h
      exact ⟨t', List.mem_cons_of_mem _ ht', hc⟩

/-- The status rewrite commutes with looking the application up, because the
rewrite does not touch ids. -/
theorem find?_map_status (l : List Application) (a : Nat) (ns : String) :
    (l.map (fun x => if x.id == a then { x with status := ns } else x)).find?
        (fun x => x.id == a)
      = (l.find? (fun x => x.id == a)).map
          (fun x => if x.id == a then { x with status := ns } else x) := by
  induction l with
  | nil => rfl
  | cons x xs ih =>
    rw [List.map_cons]
    have hid : (((if x.id == a then { x with status := ns } else x) :
        Application).id == a) = (x.id == a) := by
      by_cases hp : (x.id == a) = true
      · rw [if_pos hp]
      · rw [if_neg hp]
    simp only [List.find?]
    by_cases hp : (x.id == a) = true
    · have hxa : x.id = a := by simpa using hp
      simp [hp, hxa]
    · have hp' : (x.id == a) = false := by
        cases hq : (x.id == a)
        · rfl
        · exact absurd hq hp
      rw [hid, hp']
      exact ih

/-- C1 (counterexample): the fixture database has an open transition (id 10)
on stage 2; advancing the application to stage 2 again is not idempotent: it
returns a fresh transition (id 20), closes transition 10, grows the
transitions table from 1 to 2 rows and appends a history entry. -/
theorem C1_counterexample :
    get_current_stage_transition dbW 1 = some trOpenW ∧
    trOpenW.stageId = 2 ∧
    ((advance_application_to_stage dbW 100 1 2 5 none).toOption.map
        (fun r => (r.2.id, r.1.transitions.length, r.1.history.length,
                   (r.1.transitions.find? (fun t => t.id == 10)).map
                     (fun t => t.exitedAt))))
      = some (20, 2, 1, some (some 100)) ∧
    (20 : Nat) ≠ 10 ∧
    dbW.transitions.length = 1 ∧
    dbW.history.length = 0 := by
  refine ⟨by decide, by decide, by decide, by decide, by decide, by decide⟩

/-- C1 (amended): advancing to the stage of the currently open transition
behaves like any other advance: it closes the open transition, creates and
returns a fresh transition, and appends one StatusHistoryEntry; the status
field is rewritten to the canonical stage name, so its value is unchanged
exactly when it already equalled that name. -/
theorem C1_advance_same_stage_not_idempotent :
    ∀ (db : DB) (now : Int) (a s u : Nat) (n : Option String)
      (told : StageTransition) (db' : DB) (tr : StageTransition),
      get_current_stage_transition db a = some told →
      told.stageId = s →
      told.id ≠ db.nextId →
      advance_application_to_stage db now a s u n = .ok (db', tr) →
      tr.id = db.nextId ∧ tr.enteredAt = now ∧ tr ≠ told ∧
      (∃ t' ∈ db'.transitions, t'.id = told.id ∧ t'.exitedAt = some now) ∧
      db'.history.length = db.history.length + 1 ∧
      (∀ app stage,
        db.applications.find? (fun x => x.id == a) = some app →
        db.stages.find? (fun x => x.id == s) = some stage →
        db'.applications.find? (fun x => x.id == a)
          = some { app with status := canonicalStatus stage.name }) := by
  intro db now a s u n told db' tr hopen hstage hid h
  obtain ⟨app', stage', hfa', hfs', htr, htrans, hhist, happs, _, _, _⟩ :=
    advance_ok_spec h
  have htrid : tr.id = db.nextId := by rw [htr]
  refine ⟨htrid, by rw [htr], ?_, ?_, ?_, ?_⟩
  · intro heq
    rw [heq] at htrid
    exact hid htrid
  · rw [htrans]
    obtain ⟨t', ht', hc⟩ := closeFirstOpen_of_find? a now db.transitions told hopen
    exact ⟨t', List.mem_append_left _ ht', hc⟩
  · rw [hhist]
    simp
  · intro app stage hfa hfs
    rw [hfa] at hfa'
    cases hfa'
    rw [hfs] at hfs'
    cases hfs'
    rw [happs, find?_map_status, hfa, Option.map_some',
      if_pos (List.find?_some hfa)]

/-- C1 witness: on the fixture, the repeated advance yields a distinct fresh
transition, closes transition 10 and grows the history by one entry. -/
theorem C1_advance_same_stage_not_idempotent_witness :
    trNewW ≠ trOpenW ∧
    (∃ t' ∈ dbWAfter.transitions, t'.id = trOpenW.id ∧ t'.exitedAt = some 100) ∧
    dbWAfter.history.length = dbW.history.length + 1 :=
  let h := C1_advance_same_stage_not_idempotent dbW 100 1 2 5 none trOpenW
    dbWAfter trNewW (by decide) (by decide) (by decide) (by decide)
  ⟨h.2.2.1, h.2.2.2.1, h.2.2.2.2.1⟩

/-- Counting helper: when some requested id has no application row (and ids
and application ids are duplicate-free), the bulk-status query returns
strictly fewer rows than requested. -/
theorem bulk_found_length_lt {db : DB} {ids : List Nat} {i : Nat}
    (hnodup : ids.Nodup) (happ : (db.applications.map (fun a => a.id)).Nodup)
    (hi : i ∈ ids) (hmiss : db.applications.find? (fun a => a.id == i) = none) :
    (db.applications.filter (fun a => ids.contains a.id)).length < ids.length := by
  have hsub : List.Sublist (db.applications.filter (fun a => ids.contains a.id))
      db.applications :=
    List.filter_sublist _
  have hmapsub : List.Sublist
      ((db.applications.filter (fun a => ids.contains a.id)).map (fun a => a.id))
      (db.applications.map (fun a => a.id)) :=
    hsub.map (fun a => a.id)
  have hnd : ((db.applications.filter (fun a => ids.contains a.id)).map
      (fun a => a.id)).Nodup := List.Nodup.sublist hmapsub happ
  have hss : (db.applications.filter (fun a => ids.contains a.id)).map
      (fun a => a.id) ⊆ ids.erase i := by
    intro x hx
    obtain ⟨a, ha, rfl⟩ := List.mem_map.mp hx
    have hmem := List.mem_filter.mp ha
    have hne : a.id ≠ i := by
      have := List.find?_eq_none.mp hmiss a hmem.1
      simpa using this
    exact (List.mem_erase_of_ne hne).mpr (by simpa using hmem.2)
  have hlen : ((db.applications.filter (fun a => ids.contains a.id)).map
      (fun a => a.id)).length ≤ (ids.erase i).length :=
    (List.Nodup.subperm hnd hss).length_le
  rw [List.length_map, List.length_erase_of_mem hi] at hlen
  have hpos : 0 < ids.length := List.length_pos.mpr (by rintro rfl; cases hi)
  omega

/-- C8 (counterexample): submitting a bulk stage move for the nonexistent
application 42 does not fail: it returns an operation id and creates a
progress record. -/
theorem C8_counterexample :
    dbW.applications.find? (fun a => a.id == 42) = none ∧
    (bulk_move_to_stage dbW [42] 2 5 emptyMap).1 = .ok "bulk_stage_1_2_5" ∧
    (bulk_move_to_stage dbW [42] 2 5 emptyMap).2 "bulk_stage_1_2_5"
      = some (initProgress 1) := by
  refine ⟨by decide, by decide, by decide⟩

/-- C8 (amended): only the status-update submissions (bulk-action,
bulk-reject, bulk-approve) validate application ids before starting: a
missing id fails the submission with the list of missing ids and creates no
progress record. The stage-move submission validates only the stage row and
always creates a progress record; missing application ids are left to
per-item failures. -/
theorem C8_bulk_validation :
    (∀ (db : DB) (ids : List Nat) (ns : String) (cb : Nat) (m : ProgressMap)
       (i : Nat),
       ids.Nodup → (db.applications.map (fun a => a.id)).Nodup →
       i ∈ ids → db.applications.find? (fun a => a.id == i) = none →
       (bulk_status_update db ids ns cb m).1 = .error (missingIds db ids) ∧
       (bulk_status_update db ids ns cb m).2 = m ∧
       i ∈ missingIds db ids) ∧
    (∀ (db : DB) (ids : List Nat) (sid cb : Nat) (m : ProgressMap)
       (stage : WorkflowStage),
       db.stages.find? (fun s => s.id == sid) = some stage →
       (bulk_move_to_stage db ids sid cb m).1
         = .ok (bulkStageOpId ids.length sid cb) ∧
       (bulk_move_to_stage db ids sid cb m).2 (bulkStageOpId ids.length sid cb)
         = some (initProgress ids.length)) := by
  constructor
  · intro db ids ns cb m i hnodup happ hi hmiss
    have hlt := bulk_found_length_lt hnodup happ hi hmiss
    unfold bulk_status_update
    rw [if_neg (Nat.ne_of_lt hlt)]
    refine ⟨rfl, rfl, ?_⟩
    simp only [missingIds, List.mem_dedup, List.mem_filter]
    exact ⟨hi, by simp [hmiss]⟩
  · intro db ids sid cb m stage hfs
    unfold bulk_move_to_stage
    rw [hfs]
    exact ⟨rfl, by simp [mapSet]⟩

/-- C8 witness: id 42 is missing, so the status-update submission errors with
[42] and leaves the dict unchanged, while the stage-move submission creates
its record. -/
theorem C8_bulk_validation_witness :
    ((bulk_status_update dbW [42] "rejected" 5 emptyMap).1
        = .error (missingIds dbW [42]) ∧
     (bulk_status_update dbW [42] "rejected" 5 emptyMap).2 = emptyMap ∧
     42 ∈ missingIds dbW [42]) ∧
    ((bulk_move_to_stage dbW [42] 2 5 emptyMap).1 = .ok (bulkStageOpId 1 2 5) ∧
     (bulk_move_to_stage dbW [42] 2 5 emptyMap).2 (bulkStageOpId 1 2 5)
        = some (initProgress 1)) :=
  ⟨C8_bulk_validation.1 dbW [42] "rejected" 5 emptyMap 42
     (by decide) (by decide) (by decide) (by decide),
   C8_bulk_validation.2 dbW [42] 2 5 emptyMap stageW (by decide)⟩

/-- C10 (confirmed): the bulk operation id depends only on the number of ids,
the target (new status, resp. stage id) and the acting user; a second
successful submission agreeing on these three values gets the same id and its
fresh progress record overwrites whatever the in-memory map held there. -/
theorem C10_bulk_operation_id :
    (∀ (db : DB) (ids1 ids2 : List Nat) (ns : String) (cb : Nat)
       (m : ProgressMap) (o1 o2 : String),
       ids1.length = ids2.length →
       (bulk_status_update db ids1 ns cb m).1 = .ok o1 →
       (bulk_status_update db ids2 ns cb
          (bulk_status_update db ids1 ns cb m).2).1 = .ok o2 →
       o2 = o1 ∧
       (bulk_status_update db ids2 ns cb
          (bulk_status_update db ids1 ns cb m).2).2 o1
         = some (initProgress ids2.length)) ∧
    (∀ (db : DB) (ids1 ids2 : List Nat) (sid cb : Nat) (m : ProgressMap)
       (o1 o2 : String),
       ids1.length = ids2.length →
       (bulk_move_to_stage db ids1 sid cb m).1 = .ok o1 →
       (bulk_move_to_stage db ids2 sid cb
          (bulk_move_to_stage db ids1 sid cb m).2).1 = .ok o2 →
       o2 = o1 ∧
       (bulk_move_to_stage db ids2 sid cb
          (bulk_move_to_stage db ids1 sid cb m).2).2 o1
         = some (initProgress ids2.length)) := by
  constructor
  · intro db ids1 ids2 ns cb m o1 o2 hlen h1 h2
    unfold bulk_status_update at h1 h2 ⊢
    by_cases hc1 :
        (db.applications.filter (fun a => ids1.contains a.id)).length = ids1.length
    · rw [if_pos hc1] at h1
      by_cases hc2 :
          (db.applications.filter (fun a => ids2.contains a.id)).length = ids2.length
      · rw [if_pos hc1, if_pos hc2] at h2 ⊢
        simp only [Except.ok.injEq] at h1 h2
        subst h1
        subst h2
        refine ⟨by rw [hlen], ?_⟩
        simp [mapSet, hlen]
      · rw [if_pos hc1, if_neg hc2] at h2
        exact Except.noConfusion h2
    · rw [if_neg hc1] at h1
      exact Except.noConfusion h1
  · intro db ids1 ids2 sid cb m o1 o2 hlen h1 h2
    unfold bulk_move_to_stage at h1 h2 ⊢
    cases hfs : db.stages.find? (fun s => s.id == sid) with
    | none =>
      rw [hfs] at h1
      simp at h1
    | some st =>
      rw [hfs] at h1 h2
      simp only [Except.ok.injEq] at h1 h2
      subst h1
      subst h2
      refine ⟨by rw [hlen], ?_⟩
      simp [mapSet, hlen]

/-- C10 witness: two distinct one-element submissions by the same user with
the same target collide on "bulk_1_rejected_5" (resp. "bulk_stage_1_2_5")
and the second's fresh record is what the map holds. -/
theorem C10_bulk_operation_id_witness :
    ((bulk_status_update dbW10 [2] "rejected" 5
        (bulk_status_update dbW10 [1] "rejected" 5 emptyMap).2).2 "bulk_1_rejected_5"
      = some (initProgress 1)) ∧
    ((bulk_move_to_stage dbW10 [2] 2 5
        (bulk_move_to_stage dbW10 [1] 2 5 emptyMap).2).2 "bulk_stage_1_2_5"
      = some (initProgress 1)) :=
  ⟨(C10_bulk_operation_id.1 dbW10 [1] [2] "rejected" 5 emptyMap
      "bulk_1_rejected_5" "bulk_1_rejected_5" rfl (by decide) (by decide)).2,
   (C10_bulk_operation_id.2 dbW10 [1] [2] 2 5 emptyMap
      "bulk_stage_1_2_5" "bulk_stage_1_2_5" rfl (by decide) (by decide)).2⟩

/-- C9 (counterexample): a status change to `interview` whose job creator has
no row in the `users` table produces a notification whose recipients are the
candidate only — the hiring manager is absent despite the triggering status,
so "hiring manager is a recipient iff status ∈ {interview, offer, hired,
rejected}" fails. -/
theorem C9_counterexample :
    histW.newStatus = "interview" ∧
    ((send_status_change_notification dbNoHM 1 histW).toOption.map
        (fun nd => nd.recipients.map (fun r => r.rtype)))
      = some ["candidate"] := by
  decide

/-- C9 (amended): every notification produced has the candidate among the
recipients, and the hiring manager is among the recipients iff the new status
is one of interview, offer, hired, rejected AND the job posting's creator id
resolves to an existing user row. -/
theorem C9_notification_recipients :
    ∀ (db : DB) (aid : Nat) (sc : StatusHistoryEntry) (nd : NotificationData),
      send_status_change_notification db aid sc = .ok nd →
      "candidate" ∈ nd.recipients.map (fun r => r.rtype) ∧
      ("hiring_manager" ∈ nd.recipients.map (fun r => r.rtype) ↔
        (sc.newStatus ∈ (["interview", "offer", "hired", "rejected"] : List String) ∧
         ∃ app job,
           db.applications.find? (fun a => a.id == aid) = some app ∧
           db.jobs.find? (fun j => j.id == app.jobId) = some job ∧
           (db.users.find? (fun u => u.id == job.createdBy)).isSome = true)) := by
  intro db aid sc nd h
  unfold send_status_change_notification at h
  split at h
  · exact Except.noConfusion h
  · rename_i app hfa
    split at h
    · exact Except.noConfusion h
    · rename_i candidate hfc
      split at h
      · exact Except.noConfusion h
      · rename_i job hfj
        simp only [Except.ok.injEq] at h
        subst h
        simp only
        cases hc : (["interview", "offer", "hired", "rejected"] : List String).contains
            sc.newStatus with
        | false =>
          rw [if_neg (by simp [hc])]
          constructor
          · simp
          · constructor
            · intro hmem
              simp at hmem
            · rintro ⟨hstat, -⟩
              simp at hc
              simp at hstat
              tauto
        | true =>
          rw [if_pos (by simp [hc])]
          cases hfu : db.users.find? (fun u => u.id == job.createdBy) with
          | none =>
            constructor
            · simp
            · constructor
              · intro hmem
                simp at hmem
              · rintro ⟨-, app', job', hfa', hfj', hsome⟩
                rw [hfa] at hfa'
                cases hfa'
                rw [hfj] at hfj'
                cases hfj'
                rw [hfu] at hsome
                exact Bool.noConfusion hsome
          | some hm =>
            constructor
            · simp
            · constructor
              · intro _
                refine ⟨by simpa using hc, app, job, hfa, hfj, ?_⟩
                rw [hfu]
                rfl
              · intro _
                simp

/-- C9 witness: with the hiring manager present and status `interview`, both
the candidate and the hiring manager are recipients. -/
theorem C9_notification_recipients_witness :
    "candidate" ∈ ndW.recipients.map (fun r => r.rtype) ∧
    "hiring_manager" ∈ ndW.recipients.map (fun r => r.rtype) :=
  ⟨(C9_notification_recipients dbW 1 histW ndW (by decide)).1,
   (C9_notification_recipients dbW 1 histW ndW (by decide)).2.mpr
     ⟨by decide, appW, jobW, by decide, by decide, by decide⟩⟩

/-- C7 witness: the fixture advance appends the fixed-reason history entry. -/
theorem C7_change_reason_fixed_witness :
    dbWAfter.history = dbW.history ++
      [{ id := dbW.nextId + 1, applicationId := 1, previousStatus := appW.status,
         newStatus := canonicalStatus stageW.name, changedBy := 5,
         changeReason := "Advanced to stage: " ++ stageW.name }] ∧
    trNewW.notes = none :=
  C7_change_reason_fixed dbW 100 1 2 5 none dbWAfter trNewW appW stageW
    (by decide) (by decide) (by decide)

end ATS
